import Mathlib

/-!
Shallow embedding of the SG Ready mode controller core from src/main.cpp
(velvet-jones/sgready).

The core state is the four file-scope globals of the source:
  bool     g_excess                (DesiredMode, remote-commanded)
  int      g_currentMode           (committed Mode, 0 = Normal, 1 = Excess)
  uint32_t g_mqttLastResponseTime  (LivenessClock, DwellClock value at last ACK)
  uint32_t g_currentStateTime      (DwellClock, seconds in current mode)

uint32 arithmetic is modelled on Nat with explicit reduction mod 2^32.
The three core callbacks are embedded:
  updateMode    (the 1-second countdown-timer tick, lines 128-166)
  onMqttMessage (inbound command handler, lines 305-324)
  onMqttPublish (publish-ACK handler, lines 326-330)
Side effects that leave the core (serial logging, pin writes, MQTT
publishes, display refresh) are recorded in output structures.
-/

/-! Helper lemmas about the embedded operations. -/

/-! Claim theorems. -/

/-- Modulus of C uint32_t arithmetic, 2^32. -/
def U32MOD : Nat := 4294967296

/-- MIN_STATE_SECONDS from main.cpp line 44: minimum dwell, 600 seconds. -/
def MIN_STATE_SECONDS : Nat := 600

/-- MQTT_KEEPALIVE_INTERVAL from main.cpp line 45: MIN_STATE_SECONDS/10. -/
def MQTT_KEEPALIVE_INTERVAL : Nat := MIN_STATE_SECONDS / 10

/-- MQTT_DEAD_TIME from main.cpp line 46: MQTT_KEEPALIVE_INTERVAL*3. -/
def MQTT_DEAD_TIME : Nat := MQTT_KEEPALIVE_INTERVAL * 3

/-- uint32_t subtraction a - b (wraparound-safe), operands reduced mod 2^32. -/
def u32sub (a b : Nat) : Nat := (a + (U32MOD - b % U32MOD)) % U32MOD

/-- The four file-scope mutable globals of main.cpp (lines 60-63). -/
structure State where
  g_excess : Bool
  g_currentMode : Nat
  g_mqttLastResponseTime : Nat
  g_currentStateTime : Nat
deriving DecidableEq

/-- Startup values of the globals (main.cpp lines 60-63). -/
def initState : State :=
  { g_excess := false, g_currentMode := 0,
    g_mqttLastResponseTime := 0, g_currentStateTime := 0 }

/-- Fixed client id from uniqueID (main.cpp line 105). -/
def uniqueID : String := "sgready_board"

/-- entityTopic from main.cpp lines 108-111. -/
def entityTopic (nm : String) : String := uniqueID ++ "_" ++ nm

/-- g_excessName from main.cpp line 58. -/
def g_excessName : String := "Excess"

/-- g_modeName from main.cpp line 59. -/
def g_modeName : String := "Mode"

/-- The command topic the controller subscribes to (main.cpp line 279). -/
def cmdTopic : String := entityTopic g_excessName ++ "/set"

/-- The switch state topic used by mqttPublishExcess (main.cpp line 116). -/
def excessStateTopic : String := entityTopic g_excessName ++ "/state"

/-- An outbound MQTT publish (topic, retain flag, payload). -/
structure Publish where
  topic : String
  retain : Bool
  payload : String
deriving DecidableEq

/-- mqttPublishExcess (main.cpp lines 114-118): retained publish of the
current g_excess as ON/OFF on the switch state topic. -/
def mqttPublishExcess (s : State) : Publish :=
  { topic := excessStateTopic, retain := true,
    payload := if s.g_excess then "ON" else "OFF" }

/-- Observable effects of one updateMode tick. -/
structure TickOut where
  heartbeat : Bool
  deadEvaluated : Bool
  deadVerdict : Bool
  forcedRevert : Bool
  paranoidPins : Bool
  committed : Bool
deriving DecidableEq

/-- updateMode (main.cpp lines 128-166), the 1-second countdown tick:
publish a keepalive heartbeat when the pre-increment DwellClock is a
multiple of MQTT_KEEPALIVE_INTERVAL; increment DwellClock (uint32);
return early while it is below MIN_STATE_SECONDS; otherwise evaluate the
dead test on the wraparound-safe difference to the last ACK time; when
dead, either force g_excess off (if it was on) or take the paranoid
pin-refresh early return; finally commit when the committed mode differs
from the (possibly forced) desired mode, zeroing DwellClock. -/
def updateMode (s : State) : State × TickOut :=
  let heartbeat := decide (s.g_currentStateTime % MQTT_KEEPALIVE_INTERVAL = 0)
  let t := (s.g_currentStateTime + 1) % U32MOD
  if t < MIN_STATE_SECONDS then
    ({ s with g_currentStateTime := t },
     { heartbeat := heartbeat, deadEvaluated := false, deadVerdict := false,
       forcedRevert := false, paranoidPins := false, committed := false })
  else
    let mqttDiff := u32sub t s.g_mqttLastResponseTime
    let dead := decide (MQTT_DEAD_TIME < mqttDiff)
    if dead && !s.g_excess then
      ({ s with g_currentStateTime := t },
       { heartbeat := heartbeat, deadEvaluated := true, deadVerdict := dead,
         forcedRevert := false, paranoidPins := decide (t % 30 = 0),
         committed := false })
    else
      let excess2 := if dead then false else s.g_excess
      if s.g_currentMode = excess2.toNat then
        ({ s with g_currentStateTime := t, g_excess := excess2 },
         { heartbeat := heartbeat, deadEvaluated := true, deadVerdict := dead,
           forcedRevert := dead && s.g_excess, paranoidPins := false,
           committed := false })
      else
        ({ g_excess := excess2, g_currentMode := excess2.toNat,
           g_mqttLastResponseTime := s.g_mqttLastResponseTime,
           g_currentStateTime := 0 },
         { heartbeat := heartbeat, deadEvaluated := true, deadVerdict := dead,
           forcedRevert := dead && s.g_excess, paranoidPins := false,
           committed := true })

/-- Observable effects of one onMqttMessage invocation. -/
structure MsgOut where
  loggedInvalidPayload : Bool
  loggedUnknownTopic : Bool
  echo : Publish
deriving DecidableEq

/-- onMqttMessage (main.cpp lines 305-324): unconditionally clears
g_excess, then sets it true only for payload ON on the command topic;
payload OFF is accepted silently, any other payload on the command topic
is logged as invalid; a message for any other topic is logged as unknown;
in every case the handler ends with the courtesy echo publish of the
updated g_excess. -/
def onMqttMessage (s : State) (topic payload : String) : State × MsgOut :=
  let s1 : State := { s with g_excess := false }
  if topic = cmdTopic then
    if payload = "ON" then
      let s2 : State := { s1 with g_excess := true }
      (s2, { loggedInvalidPayload := false, loggedUnknownTopic := false,
             echo := mqttPublishExcess s2 })
    else if payload = "OFF" then
      (s1, { loggedInvalidPayload := false, loggedUnknownTopic := false,
             echo := mqttPublishExcess s1 })
    else
      (s1, { loggedInvalidPayload := true, loggedUnknownTopic := false,
             echo := mqttPublishExcess s1 })
  else
    (s1, { loggedInvalidPayload := false, loggedUnknownTopic := true,
           echo := mqttPublishExcess s1 })

/-- onMqttPublish (main.cpp lines 326-330): a publish ACK records the
current DwellClock as the last-response time. -/
def onMqttPublish (s : State) : State :=
  { s with g_mqttLastResponseTime := s.g_currentStateTime }

/-- Events delivered to the core: the periodic tick, an inbound MQTT
message, and a publish acknowledgement. -/
inductive Event where
  | tick : Event
  | msg : String → String → Event
  | ack : Event
deriving DecidableEq

/-- One event step on the core state. -/
def stepE (s : State) : Event → State
  | Event.tick => (updateMode s).1
  | Event.msg topic payload => (onMqttMessage s topic payload).1
  | Event.ack => onMqttPublish s

/-- Run a list of events from a state. -/
def run (s : State) (es : List Event) : State := List.foldl stepE s es

/-- Whether an event commits a mode transition (only a tick can). -/
def commitsE (s : State) : Event → Bool
  | Event.tick => (updateMode s).2.committed
  | Event.msg _ _ => false
  | Event.ack => false

/-- Number of tick events in a list. -/
def tickCount : List Event → Nat
  | [] => 0
  | Event.tick :: es => tickCount es + 1
  | _ :: es => tickCount es

/-- Number of committed mode transitions along a run. -/
def commitCount (s : State) : List Event → Nat
  | [] => 0
  | e :: es => (if commitsE s e then 1 else 0) + commitCount (stepE s e) es

/-- Number of keepalive heartbeat publishes along a run. -/
def hbCountE (s : State) : List Event → Nat
  | [] => 0
  | Event.tick :: es =>
      (if (updateMode s).2.heartbeat then 1 else 0) +
        hbCountE (updateMode s).1 es
  | e :: es => hbCountE (stepE s e) es

/-- Run n consecutive ticks from a state. -/
def runTicks (s : State) : Nat → State
  | 0 => s
  | n + 1 => runTicks (updateMode s).1 n

/-- setDesired: delivery of a valid command for desired mode v, i.e.
onMqttMessage on the command topic with payload ON or OFF. -/
def setDesired (s : State) (v : Bool) : State × MsgOut :=
  onMqttMessage s cmdTopic (if v then "ON" else "OFF")

/-- The recognized activate payload (main.cpp line 312). -/
def payloadOn : String := "ON"

/-- The recognized deactivate payload (main.cpp line 315). -/
def payloadOff : String := "OFF"

/-- An activate command event on the command topic. -/
def msgOn : Event := Event.msg cmdTopic payloadOn

/-- A deactivate command event on the command topic. -/
def msgOff : Event := Event.msg cmdTopic payloadOff

/-- State used to exercise the C1 theorem: a commit is due on the next
tick. -/
def c1State : State :=
  { g_excess := true, g_currentMode := 0,
    g_mqttLastResponseTime := 599, g_currentStateTime := 599 }

/-- Events used to exercise the C1 theorem: a desired-mode change
followed by 599 ticks. -/
def c1Events : List Event :=
  msgOff :: List.replicate 599 Event.tick

/-- State used for the C3 counterexample and witness. -/
def c3State : State :=
  { g_excess := true, g_currentMode := 1,
    g_mqttLastResponseTime := 7, g_currentStateTime := 42 }

/-- An unrecognized topic. -/
def unknownTopic : String := "some/other/topic"

/-- An arbitrary payload. -/
def somePayload : String := "junk"

/-- The malformed payload from the spec scenario. -/
def payloadMaybe : String := "MAYBE"

/-- State used for the C4 counterexample and witness: a commit is due on
the next tick while the last ACK was recorded at DwellClock 590. -/
def c4State : State :=
  { g_excess := true, g_currentMode := 0,
    g_mqttLastResponseTime := 590, g_currentStateTime := 599 }

/-- A burst of n consecutive tick events. -/
def tickN (n : Nat) : List Event := List.replicate n Event.tick

/-- The startup-regime state: DesiredMode false, Mode Normal, no ACK
ever recorded, DwellClock at t. -/
def initLike (t : Nat) : State :=
  { g_excess := false, g_currentMode := 0,
    g_mqttLastResponseTime := 0, g_currentStateTime := t }

/-- Starting state of the spec's fail-safe scenario: Mode = Excess,
DesiredMode = true, last ACK recorded at DwellClock = 50. -/
def c5State : State :=
  { g_excess := true, g_currentMode := 1,
    g_mqttLastResponseTime := 50, g_currentStateTime := 50 }

/-- C6 counterexample state: Mode = Excess committed, last ACK at
DwellClock reading 600 of the previous epoch, fresh dwell window. -/
def c6State : State :=
  { g_excess := true, g_currentMode := 1,
    g_mqttLastResponseTime := 600, g_currentStateTime := 0 }

/-- The C6 run after 599 ticks. -/
def c6S599 : State :=
  { g_excess := true, g_currentMode := 1,
    g_mqttLastResponseTime := 600, g_currentStateTime := 599 }

/-- The C6 run after 629 ticks. -/
def c6S629 : State :=
  { g_excess := true, g_currentMode := 1,
    g_mqttLastResponseTime := 600, g_currentStateTime := 629 }

/-- The C6 run after 629 ticks and the deactivate command. -/
def c6S629x : State :=
  { g_excess := false, g_currentMode := 1,
    g_mqttLastResponseTime := 600, g_currentStateTime := 629 }

/-- The C6 run just after the commit on the 630th tick. -/
def c6SB : State :=
  { g_excess := false, g_currentMode := 0,
    g_mqttLastResponseTime := 600, g_currentStateTime := 0 }

/-- C6 counterexample events: 629 ticks, a deactivate command, then 371
more ticks - 1000 ticks in all, with exactly one committed transition
(the 630th tick). -/
def c6Events : List Event := tickN 629 ++ (msgOff :: tickN 371)

/-- The stuck state of the C2 scenario: Mode = Excess committed,
DesiredMode already Normal, last ACK recorded at DwellClock 10 of the
current epoch, DwellClock now 190 - and no further ACKs will come. -/
def c2State : State :=
  { g_excess := false, g_currentMode := 1,
    g_mqttLastResponseTime := 10, g_currentStateTime := 190 }

/-- Intermediate states of the C2 reachability run. -/
def c2P500 : State :=
  { g_excess := false, g_currentMode := 0,
    g_mqttLastResponseTime := 0, g_currentStateTime := 500 }

/-- After the first ACK at DwellClock 500. -/
def c2Pack1 : State :=
  { g_excess := false, g_currentMode := 0,
    g_mqttLastResponseTime := 500, g_currentStateTime := 500 }

/-- After the activate command. -/
def c2Pon : State :=
  { g_excess := true, g_currentMode := 0,
    g_mqttLastResponseTime := 500, g_currentStateTime := 500 }

/-- After 99 more ticks, one tick before the commit. -/
def c2P599 : State :=
  { g_excess := true, g_currentMode := 0,
    g_mqttLastResponseTime := 500, g_currentStateTime := 599 }

/-- After the commit to Excess at DwellClock 600. -/
def c2Pcommit : State :=
  { g_excess := true, g_currentMode := 1,
    g_mqttLastResponseTime := 500, g_currentStateTime := 0 }

/-- Ten ticks into the new epoch. -/
def c2P10 : State :=
  { g_excess := true, g_currentMode := 1,
    g_mqttLastResponseTime := 500, g_currentStateTime := 10 }

/-- After the second ACK at DwellClock 10. -/
def c2Pack2 : State :=
  { g_excess := true, g_currentMode := 1,
    g_mqttLastResponseTime := 10, g_currentStateTime := 10 }

/-- After the deactivate command. -/
def c2Poff : State :=
  { g_excess := false, g_currentMode := 1,
    g_mqttLastResponseTime := 10, g_currentStateTime := 10 }

/-- The event sequence reaching the stuck state from startup. -/
def c2Events : List Event :=
  tickN 500 ++ (Event.ack :: msgOn ::
    (tickN 99 ++ (tickN 1 ++ (tickN 10 ++
      (Event.ack :: msgOff :: tickN 180)))))

set_option maxRecDepth 20000

theorem u32sub_of_le (a b : Nat) (h1 : b ≤ a) (h2 : a < U32MOD) :
    u32sub a b = a - b := by
  unfold u32sub U32MOD at *
  omega

theorem updateMode_early (s : State)
    (h : s.g_currentStateTime + 1 < MIN_STATE_SECONDS) :
    updateMode s =
      ({ s with g_currentStateTime := s.g_currentStateTime + 1 },
       { heartbeat := decide (s.g_currentStateTime % MQTT_KEEPALIVE_INTERVAL = 0),
         deadEvaluated := false, deadVerdict := false,
         forcedRevert := false, paranoidPins := false, committed := false }) := by
  have hm : (s.g_currentStateTime + 1) % U32MOD = s.g_currentStateTime + 1 :=
    Nat.mod_eq_of_lt (by unfold MIN_STATE_SECONDS at h; unfold U32MOD; omega)
  simp only [updateMode]
  rw [hm, if_pos h]

theorem commit_resets (s : State) (h : (updateMode s).2.committed = true) :
    (updateMode s).1.g_currentStateTime = 0 ∧
    (updateMode s).1.g_mqttLastResponseTime = s.g_mqttLastResponseTime := by
  revert h
  simp only [updateMode]
  split_ifs <;> intro h <;> simp_all

theorem onMqttMessage_core_fields (s : State) (topic payload : String) :
    ((onMqttMessage s topic payload).1).g_currentMode = s.g_currentMode ∧
    ((onMqttMessage s topic payload).1).g_currentStateTime = s.g_currentStateTime ∧
    ((onMqttMessage s topic payload).1).g_mqttLastResponseTime
      = s.g_mqttLastResponseTime := by
  simp only [onMqttMessage]
  split_ifs <;> exact ⟨rfl, rfl, rfl⟩

theorem no_commit_aux : ∀ (es : List Event) (s : State),
    s.g_currentStateTime + tickCount es < MIN_STATE_SECONDS →
    commitCount s es = 0 := by
  intro es
  induction es with
  | nil => intro s _; rfl
  | cons e es ih =>
    intro s h
    cases e with
    | tick =>
      have htc : tickCount (Event.tick :: es) = tickCount es + 1 := rfl
      have h1 : s.g_currentStateTime + 1 < MIN_STATE_SECONDS := by
        rw [htc] at h; omega
      have he := updateMode_early s h1
      have hc : commitsE s Event.tick = false := by
        unfold commitsE; rw [he]
      have hs : stepE s Event.tick =
          { s with g_currentStateTime := s.g_currentStateTime + 1 } := by
        unfold stepE; rw [he]
      rw [commitCount, hc, hs]
      simp only [Bool.false_eq_true, if_false, Nat.zero_add]
      refine ih _ ?_
      show s.g_currentStateTime + 1 + tickCount es < MIN_STATE_SECONDS
      rw [htc] at h
      omega
    | msg topic payload =>
      have hc : commitsE s (Event.msg topic payload) = false := rfl
      rw [commitCount, hc]
      simp only [Bool.false_eq_true, if_false, Nat.zero_add]
      have hpres := onMqttMessage_core_fields s topic payload
      exact ih _ (by
        show (stepE s (Event.msg topic payload)).g_currentStateTime
            + tickCount es < MIN_STATE_SECONDS
        unfold stepE
        rw [hpres.2.1]
        simpa [tickCount] using h)
    | ack =>
      have hc : commitsE s Event.ack = false := rfl
      rw [commitCount, hc]
      simp only [Bool.false_eq_true, if_false, Nat.zero_add]
      exact ih _ (by
        show (stepE s Event.ack).g_currentStateTime + tickCount es
            < MIN_STATE_SECONDS
        simpa [stepE, onMqttPublish, tickCount] using h)

theorem runTicks_small : ∀ (n : Nat) (s : State),
    s.g_currentStateTime + n < MIN_STATE_SECONDS →
    runTicks s n = { s with g_currentStateTime := s.g_currentStateTime + n } := by
  intro n
  induction n with
  | zero => intro s _; simp [runTicks]
  | succ n ih =>
    intro s h
    have h1 : s.g_currentStateTime + 1 < MIN_STATE_SECONDS := by omega
    have h2 : ({ s with g_currentStateTime := s.g_currentStateTime + 1 }
        : State).g_currentStateTime + n < MIN_STATE_SECONDS := by
      show s.g_currentStateTime + 1 + n < MIN_STATE_SECONDS
      omega
    rw [runTicks, updateMode_early s h1]
    show runTicks { s with g_currentStateTime := s.g_currentStateTime + 1 } n = _
    rw [ih _ h2]
    show ({ s with
      g_currentStateTime := s.g_currentStateTime + 1 + n } : State) = _
    congr 1
    omega

/-- C1: between any two commits of Mode, at least MIN_STATE_SECONDS (600)
ticks elapse: after any event that commits a mode transition, no event
sequence containing fewer than 600 ticks (ticks interleaved with
arbitrary desired-mode changes and acknowledgement events) can commit
again. -/
theorem c1_dwell_invariant (s : State) (e : Event) (es : List Event)
    (h1 : commitsE s e = true) (h2 : tickCount es < MIN_STATE_SECONDS) :
    commitCount (stepE s e) es = 0 := by
  have he : e = Event.tick := by
    cases e with
    | tick => rfl
    | msg topic payload => exact absurd h1 (by simp [commitsE])
    | ack => exact absurd h1 (by simp [commitsE])
  subst he
  have hr := commit_resets s h1
  refine no_commit_aux es _ ?_
  show (updateMode s).1.g_currentStateTime + tickCount es < MIN_STATE_SECONDS
  rw [hr.1]
  omega

/-- Witness for C1 at a concrete commit and a concrete 599-tick
sequence. -/
theorem c1_dwell_invariant_witness :
    commitsE c1State Event.tick = true ∧
    tickCount c1Events < MIN_STATE_SECONDS ∧
    commitCount (stepE c1State Event.tick) c1Events = 0 :=
  ⟨by decide, by decide,
   c1_dwell_invariant c1State Event.tick c1Events (by decide) (by decide)⟩

/-- C3 amended: a message for an unrecognized topic does not leave all
state unchanged: the handler unconditionally clears g_excess
(DesiredMode) before the topic check, so DesiredMode becomes false; the
other three core fields are unchanged and the unknown topic is logged. -/
theorem c3_unknown_topic_clears_desired (s : State) (topic payload : String)
    (h : topic ≠ cmdTopic) :
    (onMqttMessage s topic payload).1 = { s with g_excess := false } ∧
    (onMqttMessage s topic payload).2.loggedUnknownTopic = true ∧
    (onMqttMessage s topic payload).2.loggedInvalidPayload = false := by
  simp only [onMqttMessage]
  rw [if_neg h]
  exact ⟨rfl, rfl, rfl⟩

/-- C3 counterexample: with DesiredMode true, a message for an unknown
topic changes the state (DesiredMode is cleared), contradicting the
claim that the handler leaves all state unchanged. -/
theorem c3_counterexample :
    (onMqttMessage c3State unknownTopic somePayload).1 ≠ c3State ∧
    c3State.g_excess = true ∧
    (onMqttMessage c3State unknownTopic somePayload).1.g_excess = false := by
  refine ⟨?_, rfl, by decide⟩
  intro h
  have := congrArg State.g_excess h
  revert this
  decide

/-- Witness for the amended C3 at a concrete state and topic. -/
theorem c3_unknown_topic_clears_desired_witness :
    (onMqttMessage c3State unknownTopic somePayload).1 =
      { c3State with g_excess := false } ∧
    (onMqttMessage c3State unknownTopic somePayload).2.loggedUnknownTopic
      = true ∧
    (onMqttMessage c3State unknownTopic somePayload).2.loggedInvalidPayload
      = false :=
  c3_unknown_topic_clears_desired c3State unknownTopic somePayload (by decide)

/-- C7: a message on the command topic whose payload is neither ON nor
OFF leaves DesiredMode at the safe default false, changes no other core
field (hence commits no mode transition), logs an invalid-payload
diagnostic, and still performs the courtesy echo of the resulting
DesiredMode; the handler is a total function, so it cannot crash. -/
theorem c7_invalid_payload_safe_default (s : State) (payload : String)
    (h1 : payload ≠ "ON") (h2 : payload ≠ "OFF") :
    (onMqttMessage s cmdTopic payload).1 = { s with g_excess := false } ∧
    (onMqttMessage s cmdTopic payload).2.loggedInvalidPayload = true ∧
    (onMqttMessage s cmdTopic payload).2.echo =
      mqttPublishExcess { s with g_excess := false } := by
  simp only [onMqttMessage]
  rw [if_pos trivial, if_neg h1, if_neg h2]
  exact ⟨rfl, rfl, rfl⟩

/-- Witness for C7 at the spec's MAYBE scenario. -/
theorem c7_invalid_payload_safe_default_witness :
    (onMqttMessage c3State cmdTopic payloadMaybe).1 =
      { c3State with g_excess := false } ∧
    (onMqttMessage c3State cmdTopic payloadMaybe).2.loggedInvalidPayload
      = true ∧
    (onMqttMessage c3State cmdTopic payloadMaybe).2.echo =
      mqttPublishExcess { c3State with g_excess := false } :=
  c7_invalid_payload_safe_default c3State payloadMaybe (by decide) (by decide)

/-- C9: setDesired (a valid ON/OFF command) is idempotent on the core
state; it never alters DwellClock, the committed mode, or the liveness
clock (so no transition and no physical-output write occurs), it is not
logged as invalid, and its only outbound effect is the courtesy echo of
the new DesiredMode. -/
theorem c9_setDesired_idempotent (s : State) (v : Bool) :
    (setDesired (setDesired s v).1 v).1 = (setDesired s v).1 ∧
    (setDesired s v).1 = { s with g_excess := v } ∧
    (setDesired s v).2.loggedInvalidPayload = false ∧
    (setDesired s v).2.loggedUnknownTopic = false ∧
    (setDesired s v).2.echo = mqttPublishExcess { s with g_excess := v } ∧
    (setDesired (setDesired s v).1 v).2 = (setDesired s v).2 := by
  cases v <;> exact ⟨rfl, rfl, rfl, rfl, rfl, rfl⟩

/-- C10: every invocation of the message handler, whatever the topic and
payload, ends with the courtesy echo: a retained publish on the switch
state topic whose payload is ON or OFF according to the updated
DesiredMode. -/
theorem c10_echo_unconditional (s : State) (topic payload : String) :
    (onMqttMessage s topic payload).2.echo =
      { topic := excessStateTopic, retain := true,
        payload :=
          if (onMqttMessage s topic payload).1.g_excess then "ON"
          else "OFF" } := by
  simp only [onMqttMessage, mqttPublishExcess]
  split_ifs <;> simp_all

/-- C8: the policy constants are MIN_STATE_SECONDS = 600,
MQTT_KEEPALIVE_INTERVAL = 600/10 = 60, MQTT_DEAD_TIME = 3*60 = 180, and
for all uint32 values the dead test used by the tick equals the
wraparound-safe subtraction test: u32sub computes the mathematical
(now - last) mod 2^32, and comparing it against MQTT_DEAD_TIME is the
claimed verdict (no signed magnitude comparison against an absolute
timestamp). -/
theorem c8_dead_test_wraparound_safe :
    MIN_STATE_SECONDS = 600 ∧
    MQTT_KEEPALIVE_INTERVAL = MIN_STATE_SECONDS / 10 ∧
    MQTT_KEEPALIVE_INTERVAL = 60 ∧
    MQTT_DEAD_TIME = MQTT_KEEPALIVE_INTERVAL * 3 ∧
    MQTT_DEAD_TIME = 180 ∧
    ∀ now last : Nat, now < U32MOD → last < U32MOD →
      (u32sub now last
          = (((now : Int) - (last : Int)) % ((U32MOD : Nat) : Int)).toNat ∧
       (MQTT_DEAD_TIME < u32sub now last ↔
          ((MQTT_DEAD_TIME : Nat) : Int)
            < ((now : Int) - (last : Int)) % ((U32MOD : Nat) : Int))) := by
  refine ⟨rfl, rfl, rfl, rfl, rfl, ?_⟩
  intro now last h1 h2
  unfold u32sub U32MOD MQTT_DEAD_TIME MQTT_KEEPALIVE_INTERVAL
    MIN_STATE_SECONDS at *
  constructor
  · omega
  · omega

/-- Witness for C8 at a wrapped-around pair: now = 100 just after the
clock wrapped, last ACK near the top of the uint32 range. -/
theorem c8_dead_test_wraparound_safe_witness :
    (u32sub 100 4294967290
        = (((100 : Int) - (4294967290 : Int)) % ((U32MOD : Nat) : Int)).toNat ∧
     (MQTT_DEAD_TIME < u32sub 100 4294967290 ↔
        ((MQTT_DEAD_TIME : Nat) : Int)
          < ((100 : Int) - (4294967290 : Int)) % ((U32MOD : Nat) : Int))) :=
  c8_dead_test_wraparound_safe.2.2.2.2.2 100 4294967290 (by decide) (by decide)

/-- C4 counterexample: a tick that commits leaves DwellClock at 0 but
does NOT re-anchor LivenessClock: g_mqttLastResponseTime keeps its old
value 590 instead of being set to the new DwellClock origin 0, so the
claimed commit-time re-anchoring does not exist in updateMode. -/
theorem c4_counterexample :
    (updateMode c4State).2.committed = true ∧
    (updateMode c4State).1.g_currentStateTime = 0 ∧
    (updateMode c4State).1.g_mqttLastResponseTime = 590 ∧
    (updateMode c4State).1.g_mqttLastResponseTime ≠
      (updateMode c4State).1.g_currentStateTime := by
  refine ⟨by decide, by decide, by decide, by decide⟩

/-- C4 amended: a commit zeroes DwellClock and leaves LivenessClock
untouched; no dead test is evaluated during the following
MIN_STATE_SECONDS - 1 ticks; and when an acknowledgement (as solicited
by the publishes a commit performs) arrives a ticks after the commit,
the first dead check - on the tick that brings DwellClock to
MIN_STATE_SECONDS = a + b + 1 - computes exactly the b + 1 ticks elapsed
since that acknowledgement, so it reports dead exactly when the last
acknowledgement is older than MQTT_DEAD_TIME: no spurious wraparound
value and no instantly-dead verdict can follow a commit. -/
theorem c4_commit_reset_dead_check_sound :
    (∀ s : State, (updateMode s).2.committed = true →
       (updateMode s).1.g_currentStateTime = 0 ∧
       (updateMode s).1.g_mqttLastResponseTime
         = s.g_mqttLastResponseTime) ∧
    (∀ (s : State) (n : Nat), s.g_currentStateTime = 0 →
       n + 1 < MIN_STATE_SECONDS →
       (updateMode (runTicks s n)).2.deadEvaluated = false) ∧
    (∀ (s : State) (a b : Nat), s.g_currentStateTime = 0 →
       a + b + 1 = MIN_STATE_SECONDS →
       (updateMode (runTicks (onMqttPublish (runTicks s a)) b)).2.deadEvaluated
           = true ∧
       (updateMode (runTicks (onMqttPublish (runTicks s a)) b)).2.deadVerdict
           = decide (MQTT_DEAD_TIME < b + 1)) := by
  refine ⟨commit_resets, ?_, ?_⟩
  · intro s n h0 hn
    have hr : runTicks s n = { s with g_currentStateTime := n } := by
      have := runTicks_small n s (by omega)
      rw [h0] at this
      simpa using this
    rw [hr, updateMode_early _ (by simpa using hn)]
  · intro s a b h0 hab
    have hra : runTicks s a = { s with g_currentStateTime := a } := by
      have := runTicks_small a s (by omega)
      rw [h0] at this
      simpa using this
    have hack : onMqttPublish (runTicks s a) =
        { s with g_mqttLastResponseTime := a, g_currentStateTime := a } := by
      rw [hra]
      rfl
    have hrb : runTicks (onMqttPublish (runTicks s a)) b =
        { s with g_mqttLastResponseTime := a,
                 g_currentStateTime := a + b } := by
      rw [hack]
      have := runTicks_small b
        { s with g_mqttLastResponseTime := a, g_currentStateTime := a }
        (by show a + b < MIN_STATE_SECONDS; omega)
      simpa using this
    rw [hrb]
    have htm : (a + b + 1) % U32MOD = a + b + 1 :=
      Nat.mod_eq_of_lt (by unfold MIN_STATE_SECONDS at hab; unfold U32MOD; omega)
    have hdiff : u32sub (a + b + 1) a = b + 1 := by
      rw [u32sub_of_le (a + b + 1) a (by omega)
        (by unfold MIN_STATE_SECONDS at hab; unfold U32MOD; omega)]
      omega
    simp only [updateMode]
    rw [htm, if_neg (by omega), hdiff]
    split_ifs <;> exact ⟨rfl, rfl⟩

/-- Witness for the amended C4: a concrete commit, a concrete early tick
window, and a concrete first dead check 180 ticks after the last ACK
(verdict: not dead, since 180 is not greater than MQTT_DEAD_TIME). -/
theorem c4_commit_reset_dead_check_sound_witness :
    ((updateMode c4State).1.g_currentStateTime = 0 ∧
     (updateMode c4State).1.g_mqttLastResponseTime
       = c4State.g_mqttLastResponseTime) ∧
    (updateMode (runTicks initState 400)).2.deadEvaluated = false ∧
    ((updateMode (runTicks (onMqttPublish (runTicks initState 420))
        179)).2.deadEvaluated = true ∧
     (updateMode (runTicks (onMqttPublish (runTicks initState 420))
        179)).2.deadVerdict = decide (MQTT_DEAD_TIME < 180)) :=
  ⟨c4_commit_reset_dead_check_sound.1 c4State (by decide),
   c4_commit_reset_dead_check_sound.2.1 initState 400 rfl (by decide),
   c4_commit_reset_dead_check_sound.2.2 initState 420 179 rfl (by decide)⟩

/-- Splitting a tick run into two consecutive runs. -/
theorem runTicks_add (s : State) (m n : Nat) :
    runTicks s (m + n) = runTicks (runTicks s m) n := by
  induction m generalizing s with
  | zero =>
    rw [Nat.zero_add]
    rfl
  | succ m ih =>
    have h : m + 1 + n = (m + n) + 1 := by omega
    rw [h, runTicks, ih]
    rfl

/-- Splitting an event run into two consecutive runs. -/
theorem run_append (s : State) (es1 es2 : List Event) :
    run s (es1 ++ es2) = run (run s es1) es2 := by
  unfold run
  exact List.foldl_append stepE s es1 es2

/-- Tick events in an appended list. -/
theorem tickCount_append (es1 es2 : List Event) :
    tickCount (es1 ++ es2) = tickCount es1 + tickCount es2 := by
  induction es1 with
  | nil => simp [tickCount]
  | cons e es ih =>
    cases e with
    | tick =>
      show tickCount (Event.tick :: (es ++ es2))
          = tickCount (Event.tick :: es) + tickCount es2
      have h1 : tickCount (Event.tick :: (es ++ es2))
          = tickCount (es ++ es2) + 1 := rfl
      have h2 : tickCount (Event.tick :: es) = tickCount es + 1 := rfl
      rw [h1, h2, ih]
      omega
    | msg topic payload =>
      show tickCount (Event.msg topic payload :: (es ++ es2))
          = tickCount (Event.msg topic payload :: es) + tickCount es2
      have h1 : tickCount (Event.msg topic payload :: (es ++ es2))
          = tickCount (es ++ es2) := rfl
      have h2 : tickCount (Event.msg topic payload :: es) = tickCount es := rfl
      rw [h1, h2, ih]
    | ack =>
      show tickCount (Event.ack :: (es ++ es2))
          = tickCount (Event.ack :: es) + tickCount es2
      have h1 : tickCount (Event.ack :: (es ++ es2))
          = tickCount (es ++ es2) := rfl
      have h2 : tickCount (Event.ack :: es) = tickCount es := rfl
      rw [h1, h2, ih]

/-- Tick events in a replicated tick list. -/
theorem tickCount_replicate_tick (n : Nat) :
    tickCount (List.replicate n Event.tick) = n := by
  induction n with
  | zero => rfl
  | succ n ih => simp only [List.replicate, tickCount, ih]

/-- Commit count over an appended event list. -/
theorem commitCount_append (s : State) (es1 es2 : List Event) :
    commitCount s (es1 ++ es2)
      = commitCount s es1 + commitCount (run s es1) es2 := by
  induction es1 generalizing s with
  | nil => simp [commitCount, run]
  | cons e es ih =>
    show commitCount s (e :: (es ++ es2)) = _
    rw [commitCount, commitCount, ih (stepE s e)]
    have hr : run s (e :: es) = run (stepE s e) es := rfl
    rw [hr, Nat.add_assoc]

/-- Heartbeat count over an appended event list. -/
theorem hbCountE_append (s : State) (es1 es2 : List Event) :
    hbCountE s (es1 ++ es2)
      = hbCountE s es1 + hbCountE (run s es1) es2 := by
  induction es1 generalizing s with
  | nil => simp [hbCountE, run]
  | cons e es ih =>
    have hr : run s (e :: es) = run (stepE s e) es := rfl
    cases e with
    | tick =>
      show hbCountE s (Event.tick :: (es ++ es2)) = _
      rw [hbCountE, hbCountE, ih]
      rw [hr, Nat.add_assoc]
      rfl
    | msg topic payload =>
      have h1 : hbCountE s (Event.msg topic payload :: (es ++ es2))
          = hbCountE (stepE s (Event.msg topic payload)) (es ++ es2) := rfl
      have h2 : hbCountE s (Event.msg topic payload :: es)
          = hbCountE (stepE s (Event.msg topic payload)) es := rfl
      show hbCountE s (Event.msg topic payload :: (es ++ es2))
          = hbCountE s (Event.msg topic payload :: es)
            + hbCountE (run s (Event.msg topic payload :: es)) es2
      rw [h1, h2, ih, hr]
    | ack =>
      have h1 : hbCountE s (Event.ack :: (es ++ es2))
          = hbCountE (stepE s Event.ack) (es ++ es2) := rfl
      have h2 : hbCountE s (Event.ack :: es)
          = hbCountE (stepE s Event.ack) es := rfl
      show hbCountE s (Event.ack :: (es ++ es2))
          = hbCountE s (Event.ack :: es)
            + hbCountE (run s (Event.ack :: es)) es2
      rw [h1, h2, ih, hr]

/-- Running a burst of ticks as events is running the ticks. -/
theorem run_replicate_tick (n : Nat) : ∀ s : State,
    run s (tickN n) = runTicks s n := by
  induction n with
  | zero => intro s; rfl
  | succ n ih =>
    intro s
    have h1 : run s (tickN (n + 1)) = run (stepE s Event.tick) (tickN n) := rfl
    rw [h1, ih]
    rfl

/-- Heartbeat count over a burst of ticks entirely inside the dwell
window: one heartbeat per pre-advance DwellClock value divisible by 60. -/
theorem hb_early_count : ∀ (m : Nat) (s : State),
    s.g_currentStateTime + m < MIN_STATE_SECONDS →
    hbCountE s (tickN m)
      = (s.g_currentStateTime + m + 59) / 60
        - (s.g_currentStateTime + 59) / 60 := by
  intro m
  induction m with
  | zero =>
    intro s _
    show hbCountE s [] = _
    rw [hbCountE]
    omega
  | succ m ih =>
    intro s h
    have he := updateMode_early s (by omega)
    have h1 : hbCountE s (tickN (m + 1))
        = (if (updateMode s).2.heartbeat then 1 else 0)
          + hbCountE (updateMode s).1 (tickN m) := rfl
    rw [h1, he]
    have h2 := ih { s with g_currentStateTime := s.g_currentStateTime + 1 }
      (by show s.g_currentStateTime + 1 + m < MIN_STATE_SECONDS; omega)
    rw [show ({ s with g_currentStateTime := s.g_currentStateTime + 1 }
      : State).g_currentStateTime = s.g_currentStateTime + 1 from rfl] at h2
    rw [h2]
    by_cases h60 : s.g_currentStateTime % MQTT_KEEPALIVE_INTERVAL = 0
    · rw [if_pos (by simpa using h60)]
      unfold MQTT_KEEPALIVE_INTERVAL MIN_STATE_SECONDS at h60
      omega
    · rw [if_neg (by simpa using h60)]
      unfold MQTT_KEEPALIVE_INTERVAL MIN_STATE_SECONDS at h60
      omega

/-- Paranoid tick (main.cpp lines 147-153): past the dwell window, dead,
and DesiredMode already off, the tick only advances DwellClock and
(every 30 ticks) re-asserts the pins with the CURRENT committed mode. -/
theorem updateMode_paranoid (s : State)
    (h1 : ¬ (s.g_currentStateTime + 1) % U32MOD < MIN_STATE_SECONDS)
    (h2 : MQTT_DEAD_TIME
        < u32sub ((s.g_currentStateTime + 1) % U32MOD)
            s.g_mqttLastResponseTime)
    (h3 : s.g_excess = false) :
    updateMode s =
      ({ s with g_currentStateTime := (s.g_currentStateTime + 1) % U32MOD },
       { heartbeat :=
           decide (s.g_currentStateTime % MQTT_KEEPALIVE_INTERVAL = 0),
         deadEvaluated := true, deadVerdict := true, forcedRevert := false,
         paranoidPins :=
           decide ((s.g_currentStateTime + 1) % U32MOD % 30 = 0),
         committed := false }) := by
  simp only [updateMode]
  rw [if_neg h1, if_pos (by rw [h3]; simpa using h2)]
  simp [h2]

/-- One tick from the startup regime: whether the tick returns early or
takes the dead/paranoid early return, it only advances DwellClock,
commits nothing, and publishes the heartbeat exactly on pre-advance
multiples of the keepalive interval. -/
theorem init_tick_state (t : Nat) (h : t + 1 < U32MOD) :
    (updateMode (initLike t)).1 = initLike (t + 1) ∧
    (updateMode (initLike t)).2.committed = false ∧
    (updateMode (initLike t)).2.heartbeat
      = decide (t % MQTT_KEEPALIVE_INTERVAL = 0) := by
  have hm : (t + 1) % U32MOD = t + 1 := Nat.mod_eq_of_lt h
  by_cases h6 : t + 1 < MIN_STATE_SECONDS
  · have he := updateMode_early (initLike t) (by
      show (initLike t).g_currentStateTime + 1 < MIN_STATE_SECONDS
      exact h6)
    rw [he]
    exact ⟨rfl, rfl, rfl⟩
  · have hp := updateMode_paranoid (initLike t)
      (by
        show ¬ (t + 1) % U32MOD < MIN_STATE_SECONDS
        rw [hm]
        exact h6)
      (by
        show MQTT_DEAD_TIME < u32sub ((t + 1) % U32MOD) 0
        rw [hm]
        have hu : u32sub (t + 1) 0 = t + 1 := by
          unfold U32MOD at h
          unfold u32sub U32MOD
          omega
        rw [hu]
        unfold MQTT_DEAD_TIME MQTT_KEEPALIVE_INTERVAL MIN_STATE_SECONDS at *
        omega)
      rfl
    rw [hp]
    refine ⟨?_, rfl, rfl⟩
    show ({ initLike t with g_currentStateTime := (t + 1) % U32MOD }
        : State) = initLike (t + 1)
    rw [hm]
    rfl

/-- Ticks from the startup regime only advance DwellClock. -/
theorem init_runTicks : ∀ (m t : Nat), t + m < U32MOD →
    runTicks (initLike t) m = initLike (t + m) := by
  intro m
  induction m with
  | zero => intro t _; rfl
  | succ m ih =>
    intro t h
    rw [runTicks, (init_tick_state t (by omega)).1, ih (t + 1) (by omega)]
    simp only [initLike]
    congr 1
    omega

/-- No tick burst from the startup regime ever commits. -/
theorem init_commitCount : ∀ (m t : Nat), t + m < U32MOD →
    commitCount (initLike t) (tickN m) = 0 := by
  intro m
  induction m with
  | zero => intro t _; rfl
  | succ m ih =>
    intro t h
    obtain ⟨hs, hc, _⟩ := init_tick_state t (by omega)
    have h1 : commitCount (initLike t) (tickN (m + 1))
        = (if commitsE (initLike t) Event.tick then 1 else 0)
          + commitCount (updateMode (initLike t)).1 (tickN m) := rfl
    have h2 : commitsE (initLike t) Event.tick = false := hc
    rw [h1, hs, ih (t + 1) (by omega), h2]
    simp

/-- Heartbeat count for a tick burst from the startup regime: one per
pre-advance DwellClock multiple of 60. -/
theorem hb_init_count : ∀ (m t : Nat), t + m < U32MOD →
    hbCountE (initLike t) (tickN m) = (t + m + 59) / 60 - (t + 59) / 60 := by
  intro m
  induction m with
  | zero =>
    intro t _
    show hbCountE _ [] = _
    rw [hbCountE]
    omega
  | succ m ih =>
    intro t h
    obtain ⟨hs, _, hh⟩ := init_tick_state t (by omega)
    have h1 : hbCountE (initLike t) (tickN (m + 1))
        = (if (updateMode (initLike t)).2.heartbeat then 1 else 0)
          + hbCountE (updateMode (initLike t)).1 (tickN m) := rfl
    rw [h1, hs, hh, ih (t + 1) (by omega)]
    by_cases h60 : t % MQTT_KEEPALIVE_INTERVAL = 0
    · rw [if_pos (by simpa using h60)]
      unfold MQTT_KEEPALIVE_INTERVAL MIN_STATE_SECONDS at h60
      omega
    · rw [if_neg (by simpa using h60)]
      unfold MQTT_KEEPALIVE_INTERVAL MIN_STATE_SECONDS at h60
      omega

/-- C5 counterexample: advancing 180 ticks with no further ACKs brings
DwellClock to 230, but DesiredMode is still true (nothing was forced),
the dead predicate at 230 is still false (230 - 50 = 180 is not
strictly greater than MQTT_DEAD_TIME), and the tick that reached 230
never even evaluated the dead test, contradicting the claim that at
DwellClock 230 isDead becomes true and DesiredMode is forced false. -/
theorem c5_counterexample :
    (runTicks c5State 180).g_currentStateTime = 230 ∧
    (runTicks c5State 180).g_excess = true ∧
    ¬ (MQTT_DEAD_TIME < u32sub 230 50) ∧
    (updateMode (runTicks c5State 179)).2.deadEvaluated = false := by
  have h180 : runTicks c5State 180 =
      { g_excess := true, g_currentMode := 1,
        g_mqttLastResponseTime := 50, g_currentStateTime := 230 } := by
    rw [runTicks_small 180 c5State (by decide)]
    decide
  have h179 : runTicks c5State 179 =
      { g_excess := true, g_currentMode := 1,
        g_mqttLastResponseTime := 50, g_currentStateTime := 229 } := by
    rw [runTicks_small 179 c5State (by decide)]
    decide
  rw [h180, h179]
  exact ⟨rfl, rfl, by decide, by decide⟩

/-- C5 amended: in the scenario (Mode = Excess, DesiredMode = true, last
ACK at DwellClock 50, no further ACKs) the dead predicate first becomes
true at DwellClock = 231, but it is only evaluated once DwellClock has
reached MIN_STATE_SECONDS; on the tick that brings DwellClock to 600 the
dead check runs (550 > 180), DesiredMode is forcibly reverted to false,
and Mode commits to Normal in that same tick, resetting DwellClock. -/
theorem c5_failsafe_scenario :
    ¬ (MQTT_DEAD_TIME < u32sub 230 50) ∧
    (MQTT_DEAD_TIME < u32sub 231 50) ∧
    (runTicks c5State 549).g_excess = true ∧
    (runTicks c5State 549).g_currentMode = 1 ∧
    (runTicks c5State 549).g_currentStateTime = 599 ∧
    (updateMode (runTicks c5State 549)).2.deadVerdict = true ∧
    (updateMode (runTicks c5State 549)).2.forcedRevert = true ∧
    (updateMode (runTicks c5State 549)).2.committed = true ∧
    runTicks c5State 550 =
      { g_excess := false, g_currentMode := 0,
        g_mqttLastResponseTime := 50, g_currentStateTime := 0 } := by
  have h549 : runTicks c5State 549 =
      { g_excess := true, g_currentMode := 1,
        g_mqttLastResponseTime := 50, g_currentStateTime := 599 } := by
    rw [runTicks_small 549 c5State (by decide)]
    decide
  have h550 : runTicks c5State 550 =
      { g_excess := false, g_currentMode := 0,
        g_mqttLastResponseTime := 50, g_currentStateTime := 0 } := by
    rw [show (550 : Nat) = 549 + 1 from rfl, runTicks_add, h549]
    decide
  rw [h549, h550]
  exact ⟨by decide, by decide, rfl, rfl, rfl, by decide, by decide,
    by decide, rfl⟩

/-- Tick count of a tick burst. -/
theorem tickCount_tickN (n : Nat) : tickCount (tickN n) = n :=
  tickCount_replicate_tick n

/-- Splitting a tick burst. -/
theorem tickN_add (m n : Nat) : tickN (m + n) = tickN m ++ tickN n := by
  unfold tickN
  rw [List.replicate_add]

/-- C6 counterexample: the very first tick from startup publishes a
heartbeat although the advanced DwellClock is 1, not divisible by
MQTT_KEEPALIVE_INTERVAL (the code tests the pre-advance value); and a
1000-tick window containing one committed transition yields 18
heartbeat publishes, not 17, so the count is not independent of
transitions. -/
theorem c6_counterexample :
    (updateMode initState).2.heartbeat = true ∧
    (updateMode initState).1.g_currentStateTime = 1 ∧
    ¬ (1 % MQTT_KEEPALIVE_INTERVAL = 0) ∧
    tickCount c6Events = 1000 ∧
    commitCount c6State c6Events = 1 ∧
    hbCountE c6State c6Events = 18 := by
  have hsplitA : tickN 629 = tickN 599 ++ tickN 30 := tickN_add 599 30
  have hsplitB : tickN 371 = tickN 1 ++ tickN 370 := tickN_add 1 370
  have hrun599 : run c6State (tickN 599) = c6S599 := by
    rw [run_replicate_tick, runTicks_small 599 c6State (by decide)]
    decide
  have hrun30 : run c6S599 (tickN 30) = c6S629 := by
    rw [run_replicate_tick]
    decide
  have hrunA : run c6State (tickN 629) = c6S629 := by
    rw [hsplitA, run_append, hrun599, hrun30]
  have hstepMsg : stepE c6S629 msgOff = c6S629x := by decide
  have hrun1 : run c6S629x (tickN 1) = c6SB := by decide
  refine ⟨by decide, by decide, by decide, ?_, ?_, ?_⟩
  · rw [show c6Events = tickN 629 ++ (msgOff :: tickN 371) from rfl,
      tickCount_append, tickCount_tickN,
      show tickCount (msgOff :: tickN 371) = tickCount (tickN 371) from rfl,
      tickCount_tickN]
  · rw [show c6Events = tickN 629 ++ (msgOff :: tickN 371) from rfl,
      commitCount_append, hrunA]
    have hcA : commitCount c6State (tickN 629) = 0 := by
      rw [hsplitA, commitCount_append, hrun599]
      have h1 : commitCount c6State (tickN 599) = 0 :=
        no_commit_aux (tickN 599) c6State (by rw [tickCount_tickN]; decide)
      have h2 : commitCount c6S599 (tickN 30) = 0 := by decide
      rw [h1, h2]
    have hcM : commitCount c6S629 (msgOff :: tickN 371) = 1 := by
      have he : commitCount c6S629 (msgOff :: tickN 371)
          = commitCount (stepE c6S629 msgOff) (tickN 371) := by
        rw [commitCount]
        decide
      rw [he, hstepMsg, hsplitB, commitCount_append, hrun1]
      have h3 : commitCount c6S629x (tickN 1) = 1 := by decide
      have h4 : commitCount c6SB (tickN 370) = 0 :=
        no_commit_aux (tickN 370) c6SB (by rw [tickCount_tickN]; decide)
      rw [h3, h4]
    rw [hcA, hcM]
  · rw [show c6Events = tickN 629 ++ (msgOff :: tickN 371) from rfl,
      hbCountE_append, hrunA]
    have hbA : hbCountE c6State (tickN 629) = 11 := by
      rw [hsplitA, hbCountE_append, hrun599]
      have h1 : hbCountE c6State (tickN 599) = 10 := by
        rw [hb_early_count 599 c6State (by decide)]
        decide
      have h2 : hbCountE c6S599 (tickN 30) = 1 := by decide
      rw [h1, h2]
    have hbM : hbCountE c6S629 (msgOff :: tickN 371) = 7 := by
      have he : hbCountE c6S629 (msgOff :: tickN 371)
          = hbCountE (stepE c6S629 msgOff) (tickN 371) := rfl
      rw [he, hstepMsg, hsplitB, hbCountE_append, hrun1]
      have h3 : hbCountE c6S629x (tickN 1) = 0 := by decide
      have h4 : hbCountE c6SB (tickN 370) = 7 := by
        rw [hb_early_count 370 c6SB (by decide)]
        decide
      rw [h3, h4]
    rw [hbA, hbM]

/-- C6 amended: each tick publishes the heartbeat exactly when the
pre-advance DwellClock is divisible by MQTT_KEEPALIVE_INTERVAL (the
divisibility test precedes the increment); over 1000 ticks from startup
no transition commits and exactly 17 heartbeat publishes occur (at
pre-advance DwellClock values 0, 60, ..., 960); the count is not
independent of transitions (see the counterexample). -/
theorem c6_heartbeat_cadence :
    (∀ s : State, (updateMode s).2.heartbeat
        = decide (s.g_currentStateTime % MQTT_KEEPALIVE_INTERVAL = 0)) ∧
    commitCount initState (tickN 1000) = 0 ∧
    hbCountE initState (tickN 1000) = 17 := by
  refine ⟨?_, ?_, ?_⟩
  · intro s
    simp only [updateMode]
    split_ifs <;> rfl
  · have h : initState = initLike 0 := rfl
    rw [h]
    exact init_commitCount 1000 0 (by decide)
  · have h : initState = initLike 0 := rfl
    rw [h, hb_init_count 1000 0 (by decide)]

/-- Unfolding one event from a run. -/
theorem run_cons (s : State) (e : Event) (es : List Event) :
    run s (e :: es) = run (stepE s e) es := rfl

/-- Early-return tick in wraparound form: whenever the incremented
DwellClock (mod 2^32) is below the dwell threshold, the tick only
stores it and returns. -/
theorem updateMode_early2 (s : State)
    (h : (s.g_currentStateTime + 1) % U32MOD < MIN_STATE_SECONDS) :
    updateMode s =
      ({ s with g_currentStateTime := (s.g_currentStateTime + 1) % U32MOD },
       { heartbeat :=
           decide (s.g_currentStateTime % MQTT_KEEPALIVE_INTERVAL = 0),
         deadEvaluated := false, deadVerdict := false,
         forcedRevert := false, paranoidPins := false,
         committed := false }) := by
  simp only [updateMode]
  rw [if_pos h]

/-- One tick step preserves the C2 stuck configuration: DesiredMode
stays false, Mode stays Excess, LivenessClock stays 10. Whenever the
dead test is evaluated the verdict is dead (the incremented clock is at
least 600, so at least 590 above the ACK at 10), DesiredMode is already
false, and the paranoid branch returns before the commit check. -/
theorem c2_stuck_step (s : State) (he : s.g_excess = false)
    (hm : s.g_currentMode = 1) (hl : s.g_mqttLastResponseTime = 10) :
    (updateMode s).1.g_excess = false ∧
    (updateMode s).1.g_currentMode = 1 ∧
    (updateMode s).1.g_mqttLastResponseTime = 10 := by
  by_cases h6 : (s.g_currentStateTime + 1) % U32MOD < MIN_STATE_SECONDS
  · rw [updateMode_early2 s h6]
    exact ⟨he, hm, hl⟩
  · have hdead : MQTT_DEAD_TIME
        < u32sub ((s.g_currentStateTime + 1) % U32MOD)
            s.g_mqttLastResponseTime := by
      rw [hl]
      unfold MIN_STATE_SECONDS U32MOD at h6
      unfold u32sub U32MOD MQTT_DEAD_TIME MQTT_KEEPALIVE_INTERVAL
        MIN_STATE_SECONDS
      omega
    rw [updateMode_paranoid s h6 hdead he]
    exact ⟨he, hm, hl⟩

/-- C2 (code bug): the stuck state is reachable from startup, and from
it, with no further acknowledgements (ticks only), the committed Mode
remains Excess forever: the controller never converges to Normal. -/
theorem c2_never_converges :
    run initState c2Events = c2State ∧
    ∀ n : Nat, (runTicks c2State n).g_currentMode = 1 := by
  constructor
  · have h1 : run initState (tickN 500) = c2P500 := by
      rw [run_replicate_tick, runTicks_small 500 initState (by decide)]
      decide
    have h2 : stepE c2P500 Event.ack = c2Pack1 := by decide
    have h3 : stepE c2Pack1 msgOn = c2Pon := by decide
    have h4 : run c2Pon (tickN 99) = c2P599 := by
      rw [run_replicate_tick, runTicks_small 99 c2Pon (by decide)]
      decide
    have h5 : run c2P599 (tickN 1) = c2Pcommit := by decide
    have h6 : run c2Pcommit (tickN 10) = c2P10 := by
      rw [run_replicate_tick, runTicks_small 10 c2Pcommit (by decide)]
      decide
    have h7 : stepE c2P10 Event.ack = c2Pack2 := by decide
    have h8 : stepE c2Pack2 msgOff = c2Poff := by decide
    have h9 : run c2Poff (tickN 180) = c2State := by
      rw [run_replicate_tick, runTicks_small 180 c2Poff (by decide)]
      decide
    rw [show c2Events = tickN 500 ++ (Event.ack :: msgOn ::
        (tickN 99 ++ (tickN 1 ++ (tickN 10 ++
          (Event.ack :: msgOff :: tickN 180))))) from rfl]
    rw [run_append, h1, run_cons, h2, run_cons, h3, run_append, h4,
      run_append, h5, run_append, h6, run_cons, h7, run_cons, h8, h9]
  · have hinv : ∀ (n : Nat) (s : State), s.g_excess = false →
        s.g_currentMode = 1 → s.g_mqttLastResponseTime = 10 →
        (runTicks s n).g_excess = false ∧
        (runTicks s n).g_currentMode = 1 ∧
        (runTicks s n).g_mqttLastResponseTime = 10 := by
      intro n
      induction n with
      | zero => intro s he hm hl; exact ⟨he, hm, hl⟩
      | succ n ih =>
        intro s he hm hl
        rw [runTicks]
        obtain ⟨a, b, c⟩ := c2_stuck_step s he hm hl
        exact ih _ a b c
    intro n
    exact (hinv n c2State rfl rfl rfl).2.1

/-- Witness for the amended C6 at a concrete state. -/
theorem c6_heartbeat_cadence_witness :
    (updateMode c6State).2.heartbeat
      = decide (c6State.g_currentStateTime % MQTT_KEEPALIVE_INTERVAL = 0) :=
  c6_heartbeat_cadence.1 c6State

/-- Witness for C9 at a concrete state and value. -/
theorem c9_setDesired_idempotent_witness :
    (setDesired (setDesired c3State true).1 true).1
      = (setDesired c3State true).1 ∧
    (setDesired c3State true).1 = { c3State with g_excess := true } ∧
    (setDesired c3State true).2.loggedInvalidPayload = false ∧
    (setDesired c3State true).2.loggedUnknownTopic = false ∧
    (setDesired c3State true).2.echo
      = mqttPublishExcess { c3State with g_excess := true } ∧
    (setDesired (setDesired c3State true).1 true).2
      = (setDesired c3State true).2 :=
  c9_setDesired_idempotent c3State true

/-- Witness for C10 at a concrete state, unknown topic and payload. -/
theorem c10_echo_unconditional_witness :
    (onMqttMessage c3State unknownTopic somePayload).2.echo =
      { topic := excessStateTopic, retain := true,
        payload :=
          if (onMqttMessage c3State unknownTopic somePayload).1.g_excess
          then "ON" else "OFF" } :=
  c10_echo_unconditional c3State unknownTopic somePayload
